import Mathlib

set_option autoImplicit false

/-!
The `GenerateVideo` handler of video-backend.

A shallow embedding of `backend/models/types.go` and
`backend/handlers/generate.go`.

The handler is straight-line code around four library calls
(`c.ShouldBindJSON`, `os.Getenv`, `http.NewRequest` / `client.Do`,
`json.Unmarshal`).  What the outside world decides (the process environment,
the bytes-to-document layer of `encoding/json`, whether a URL parses, what the
upstream answers) is collected in `Env`; what the handler itself decides is
translated branch by branch.  The observable effects of one run (responses
written with `c.JSON`, outbound calls made with `client.Do`, lines printed
with `fmt.Printf`) are accumulated in `Context`.
-/

namespace VideoBackend

/-! ## Data model -/

/-- A JSON document as `encoding/json` sees it after scanning: the six JSON
kinds; an object keeps its members in textual order, duplicates included;
a number keeps its literal. -/
inductive JSON where
  | null : JSON
  | bool (b : Bool) : JSON
  | num (lit : String) : JSON
  | str (s : String) : JSON
  | arr (items : List JSON) : JSON
  | obj (members : List (String × JSON)) : JSON

/-- The struct `models.GenerateRequest`: one field, tagged
`json:"prompt" binding:"required"`.  The default is the Go zero value. -/
structure GenerateRequest where
  Prompt : String := ""
  deriving DecidableEq, Repr

/-- The struct `models.GenerateResponse`, tagged `json:"success"`,
`json:"videoUrl"` and `json:"error,omitempty"`.  A field left out of a Go
struct literal holds its zero value, which the defaults reproduce. -/
structure GenerateResponse where
  Success : Bool := false
  VideoURL : String := ""
  Error : String := ""
  deriving DecidableEq, Repr

/-- What `encoding/json` writes for a `GenerateResponse` (the body `c.JSON`
sends): the fields in declaration order under their tag names; `success` and
`videoUrl` carry no `omitempty` and are always written, `error` carries
`omitempty` and is left out when it is the empty string. -/
def GenerateResponse.toJSON (r : GenerateResponse) : JSON :=
  JSON.obj ([("success", JSON.bool r.Success), ("videoUrl", JSON.str r.VideoURL)] ++
    (if r.Error = "" then [] else [("error", JSON.str r.Error)]))

/-- The member names of a JSON object, in order (empty for the other kinds). -/
def JSON.keys : JSON → List String
  | JSON.obj ms => ms.map (fun kv => kv.1)
  | _ => []

/-- The string held under a member name of a JSON object, when there is one. -/
def JSON.stringAt (j : JSON) (k : String) : Option String :=
  match j with
  | JSON.obj ms =>
    match ms.find? (fun kv => kv.1 == k) with
    | some (_, JSON.str s) => some s
    | _ => none
  | _ => none

/-! ## The outside world -/

/-- An outbound `*http.Request` as the handler prepares it. -/
structure HTTPRequest where
  Method : String
  URL : String
  Header : List (String × String) := []
  Body : String
  deriving DecidableEq, Repr

/-- The part of an upstream `*http.Response` the handler reads: the status
code and the bytes `io.ReadAll(resp.Body)` yields (its error is discarded). -/
structure HTTPResponse where
  StatusCode : Int
  Body : String
  deriving DecidableEq, Repr

/-- Everything the handler obtains from outside its own code.

* `Getenv`: `os.Getenv` (the empty string for an unset variable);
* `decodeStream`: the scanner of `json.NewDecoder(r).Decode`, which reads the
  first JSON value of the request body (`none`: no well-formed value);
* `decodeWhole`: the scanner of `json.Unmarshal`, which wants the whole input
  to be one JSON value (`none`: not well-formed);
* `floatFits`: whether `strconv.ParseFloat(lit, 64)` accepts a number literal
  (`false`: the number is outside the range of `float64`, as `1e999` is);
* `encode`: the text `json.Marshal` renders for a document;
* `parseURL`: whether `url.Parse`, called by `http.NewRequest`, accepts;
* `Do`: `client.Do`, a transport error or the upstream reply. -/
structure Env where
  Getenv : String → String
  decodeStream : String → Option JSON
  decodeWhole : String → Option JSON
  floatFits : String → Bool
  encode : JSON → String
  parseURL : String → Bool
  Do : HTTPRequest → Except String HTTPResponse

/-- The effects of one handler run: the `(status, body)` pairs written with
`c.JSON`, the requests handed to `client.Do`, and the text printed with
`fmt.Printf`, each in program order. -/
structure Context where
  responses : List (Nat × GenerateResponse) := []
  calls : List HTTPRequest := []
  stdout : List String := []
  deriving DecidableEq, Repr

/-- The call `c.JSON(code, obj)`: one more response written. -/
def Context.JSON (c : Context) (code : Nat) (obj : GenerateResponse) : Context :=
  { c with responses := c.responses ++ [(code, obj)] }

/-- Record that `client.Do(request)` was invoked. -/
def Context.send (c : Context) (request : HTTPRequest) : Context :=
  { c with calls := c.calls ++ [request] }

/-- The call `fmt.Printf`: one more piece of text on standard output. -/
def Context.Printf (c : Context) (text : String) : Context :=
  { c with stdout := c.stdout ++ [text] }

/-! ## `c.ShouldBindJSON(&req)` -/

/-- Whether an object key selects the field tagged `json:"prompt"`:
`encoding/json` takes an exact match and otherwise a case-insensitive one
(no letter of `prompt` has a non-ASCII case variant). -/
def namesPrompt (key : String) : Bool :=
  key == "prompt" || key.toLower == "prompt"

/-- The decoder state while the members of an object are stored into a
`GenerateRequest`: the struct so far and the first type error saved. -/
structure DecodeState where
  req : GenerateRequest := {}
  savedError : Option String := none

/-- Store one object member: a key that does not select `Prompt` is skipped;
a string is assigned; `null` leaves the field as it is; any other kind saves
an `UnmarshalTypeError` (the first one is kept) and decoding goes on. -/
def decodeMember (st : DecodeState) (kv : String × JSON) : DecodeState :=
  if namesPrompt kv.1 then
    match kv.2 with
    | JSON.str s => { st with req := { Prompt := s } }
    | JSON.null => st
    | _ =>
      match st.savedError with
      | some _ => st
      | none => { st with savedError := some "json: cannot unmarshal into Go struct field GenerateRequest.prompt of type string" }
  else st

/-- Decoding a scanned document into a zero `GenerateRequest`: `null` is a
no-op, an object is stored member by member, every other kind is an
`UnmarshalTypeError`. -/
def decodeRequest (j : JSON) : Except String GenerateRequest :=
  match j with
  | JSON.null => Except.ok {}
  | JSON.obj ms =>
    match (ms.foldl decodeMember {}).savedError with
    | some e => Except.error e
    | none => Except.ok (ms.foldl decodeMember {}).req
  | _ => Except.error "json: cannot unmarshal into Go value of type models.GenerateRequest"

/-- The validator run for `binding:"required"`: a string field passes when it
is not the zero value. -/
def validate (req : GenerateRequest) : Except String GenerateRequest :=
  if req.Prompt = "" then Except.error "Field validation for Prompt failed on the required tag"
  else Except.ok req

/-- The call `c.ShouldBindJSON(&req)`: scan the first JSON value of the body,
decode it into the struct, then validate the struct. -/
def ShouldBindJSON (env : Env) (body : String) : Except String GenerateRequest :=
  match env.decodeStream body with
  | none => Except.error "invalid JSON"
  | some j =>
    match decodeRequest j with
    | Except.error e => Except.error e
    | Except.ok req => validate req

/-! ## `json.Marshal`, `http.NewRequest`, `json.Unmarshal` -/

/-- The call `json.Marshal(upstreamPayload)`: a map from strings to strings
has no value `encoding/json` refuses, so the result is always the rendering. -/
def Marshal (env : Env) (v : JSON) : Except String String :=
  Except.ok (env.encode v)

/-- The call `http.NewRequest(method, url, body)`: fails when the URL does not
parse, otherwise a request with an empty header. -/
def NewRequest (env : Env) (method url body : String) : Except String HTTPRequest :=
  if env.parseURL url then Except.ok { Method := method, URL := url, Header := [], Body := body }
  else Except.error "parse error"

/-- The call `request.Header.Set(k, v)`: the value replaces whatever the key
held. -/
def HTTPRequest.Set (r : HTTPRequest) (k v : String) : HTTPRequest :=
  { r with Header := r.Header.filter (fun e => e.1 != k) ++ [(k, v)] }

/-- The call `request.Header.Get(k)`: the value a header key holds. -/
def HTTPRequest.Get (r : HTTPRequest) (k : String) : Option String :=
  (r.Header.find? (fun e => e.1 == k)).map (fun e => e.2)

/-- Assignment `m[k] = v` on a Go `map[string]interface{}`. -/
def mapAssign (m : List (String × JSON)) (k : String) (v : JSON) : List (String × JSON) :=
  (k, v) :: m.filter (fun e => e.1 != k)

/-- Indexing `m[k]` on a Go `map[string]interface{}`: `none` is the nil
interface an absent key yields. -/
def mapIndex (m : List (String × JSON)) (k : String) : Option JSON :=
  (m.find? (fun e => e.1 == k)).map (fun e => e.2)

/-- The map `json.Unmarshal` builds from the members of an object: each
member is assigned in turn, so a repeated key keeps its last value. -/
def mapOfMembers (ms : List (String × JSON)) : List (String × JSON) :=
  ms.foldl (fun m kv => mapAssign m kv.1 kv.2) []

mutual
/-- Whether every number of a document converts to a `float64`: decoding
into `interface{}` converts each number literal with `strconv.ParseFloat`,
at any depth, and saves an `UnmarshalTypeError` for one that is out of
range. -/
def numbersFit (env : Env) : JSON → Bool
  | JSON.num lit => env.floatFits lit
  | JSON.arr items => itemsFit env items
  | JSON.obj ms => membersFit env ms
  | _ => true
/-- The check `numbersFit` over the elements of an array. -/
def itemsFit (env : Env) : List JSON → Bool
  | [] => true
  | j :: rest => numbersFit env j && itemsFit env rest
/-- The check `numbersFit` over the values of the members of an object. -/
def membersFit (env : Env) : List (String × JSON) → Bool
  | [] => true
  | (_, j) :: rest => numbersFit env j && membersFit env rest
end

/-- The call `json.Unmarshal(bodyBytes, &upstreamResp)` into a nil
`map[string]interface{}`: a syntax error fails; `null` leaves the map nil; an
object fills the map, and the call returns the saved `UnmarshalTypeError`
when a number anywhere in it is outside `float64`; any other kind is an
`UnmarshalTypeError`. -/
def Unmarshal (env : Env) (data : String) : Except String (List (String × JSON)) :=
  match env.decodeWhole data with
  | none => Except.error "invalid character"
  | some JSON.null => Except.ok []
  | some (JSON.obj ms) =>
    if membersFit env ms then Except.ok (mapOfMembers ms)
    else Except.error "json: cannot unmarshal number into Go value of type float64"
  | some _ => Except.error "json: cannot unmarshal into Go value of type map[string]interface"

/-- The type assertion `x.(string)` on an `interface{}` taken from the map. -/
def assertString : Option JSON → Option String
  | some (JSON.str s) => some s
  | _ => none

/-! ## The handler -/

/-- The function `handlers.GenerateVideo`, run on a fresh context with the
request body `body`. -/
def GenerateVideo (env : Env) (body : String) : Context :=
  let c : Context := {}
  match ShouldBindJSON env body with
  | Except.error _ =>
    c.JSON 400 { Success := false, Error := "Invalid request: prompt is required" }
  | Except.ok req =>
    let apiKey := env.Getenv "AI_API_KEY"
    let apiURL := env.Getenv "AI_API_URL"
    if apiKey = "" ∨ apiURL = "" then
      c.JSON 500 { Success := false, Error := "Server configuration error: API Key or URL missing" }
    else
      let upstreamPayload := JSON.obj [("prompt", JSON.str req.Prompt)]
      match Marshal env upstreamPayload with
      | Except.error _ =>
        c.JSON 500 { Success := false, Error := "Failed to process request data" }
      | Except.ok jsonData =>
        match NewRequest env "POST" apiURL jsonData with
        | Except.error _ =>
          c.JSON 500 { Success := false, Error := "Failed to create request" }
        | Except.ok request =>
          let request := request.Set "Content-Type" "application/json"
          let request := request.Set "Authorization" ("Bearer " ++ apiKey)
          let c := c.send request
          match env.Do request with
          | Except.error _ =>
            c.JSON 502 { Success := false, Error := "Failed to contact AI provider" }
          | Except.ok resp =>
            let bodyBytes := resp.Body
            if resp.StatusCode ≠ 200 then
              let c := c.Printf ("Upstream Error: " ++ bodyBytes ++ "\n")
              c.JSON 502 { Success := false, Error := "AI Provider returned error: " ++ toString resp.StatusCode }
            else
              match Unmarshal env bodyBytes with
              | Except.error _ =>
                c.JSON 500 { Success := false, Error := "Failed to parse AI response" }
              | Except.ok upstreamResp =>
                match assertString (mapIndex upstreamResp "url") with
                | some url =>
                  c.JSON 200 { Success := true, VideoURL := url }
                | none =>
                  match assertString (mapIndex upstreamResp "output") with
                  | some output =>
                    c.JSON 200 { Success := true, VideoURL := output }
                  | none =>
                    c.JSON 500 { Success := false, Error := "Video URL not found in response" }

/-! ## Notions the specification speaks with -/

/-- The value of the last member of an object named `k` (what the map built
by `json.Unmarshal` holds under `k`), `none` when no member has that name. -/
def lastMember : List (String × JSON) → String → Option JSON
  | [], _ => none
  | (k1, v) :: rest, k =>
    match lastMember rest k with
    | some w => some w
    | none => if k1 == k then some v else none

/-- The value of the last member of an object that selects the `Prompt`
field, `none` when no member does. -/
def promptMember : List (String × JSON) → Option JSON
  | [] => none
  | (k, v) :: rest =>
    match promptMember rest with
    | some w => some w
    | none => if namesPrompt k then some v else none

/-- The request body is a JSON object whose `prompt` is missing (no member
selects the field) or is the empty string. -/
def promptMissingOrEmpty (env : Env) (body : String) : Bool :=
  match env.decodeStream body with
  | some (JSON.obj ms) =>
    match promptMember ms with
    | none => true
    | some (JSON.str s) => s == ""
    | some _ => false
  | _ => false

/-- The request lines 43 to 64 of the handler prepare for a prompt: a `POST`
to `AI_API_URL` with the two headers set and the marshalled payload. -/
def upstreamRequest (env : Env) (prompt : String) : HTTPRequest :=
  { Method := "POST"
    URL := env.Getenv "AI_API_URL"
    Header := [("Content-Type", "application/json"),
      ("Authorization", "Bearer " ++ env.Getenv "AI_API_KEY")]
    Body := env.encode (JSON.obj [("prompt", JSON.str prompt)]) }

/-- Outcome class: the request fails prompt binding. -/
def bindFails (env : Env) (body : String) : Bool :=
  match ShouldBindJSON env body with
  | Except.error _ => true
  | Except.ok _ => false

/-- Outcome class: a configuration value is missing. -/
def configMissing (env : Env) : Bool :=
  env.Getenv "AI_API_KEY" == "" || env.Getenv "AI_API_URL" == ""

/-- Outcome class: the outbound request cannot be built from the configured
URL. -/
def cannotBuild (env : Env) : Bool :=
  !env.parseURL (env.Getenv "AI_API_URL")

/-- Outcome class: the outbound call was made and it failed at transport
level, or the upstream status is not 200. -/
def callFailed (env : Env) (body : String) : Bool :=
  (GenerateVideo env body).calls.any (fun rq =>
    match env.Do rq with
    | Except.error _ => true
    | Except.ok resp => resp.StatusCode != 200)

/-- Outcome class: the upstream answered 200 and its body does not unmarshal
into a map, or holds no string under `url` and none under `output`. -/
def replyWithoutURL (env : Env) (body : String) : Bool :=
  (GenerateVideo env body).calls.any (fun rq =>
    match env.Do rq with
    | Except.error _ => false
    | Except.ok resp =>
      resp.StatusCode == 200 &&
        (match Unmarshal env resp.Body with
        | Except.error _ => true
        | Except.ok m =>
          (assertString (mapIndex m "url")).isNone &&
            (assertString (mapIndex m "output")).isNone))

/-- Outcome class: the upstream answered 200 and a URL was extracted from its
body. -/
def urlExtracted (env : Env) (body : String) : Bool :=
  (GenerateVideo env body).calls.any (fun rq =>
    match env.Do rq with
    | Except.error _ => false
    | Except.ok resp =>
      resp.StatusCode == 200 &&
        (match Unmarshal env resp.Body with
        | Except.error _ => false
        | Except.ok m =>
          (assertString (mapIndex m "url")).isSome ||
            (assertString (mapIndex m "output")).isSome))

/-- The same world with an upstream that answers every call with `resp`. -/
def Env.withReply (env : Env) (resp : HTTPResponse) : Env :=
  { env with Do := fun _ => Except.ok resp }

/-! ## Sample worlds for the concrete checks -/

/-- The request body `{"prompt":"a cat"}`. -/
def catBody : String := "\x7b\"prompt\":\"a cat\"\x7d"

/-- The request body `{"prompt":""}`. -/
def emptyPromptBody : String := "\x7b\"prompt\":\"\"\x7d"

/-- The upstream body `{"url":"http://x/a.mp4"}`. -/
def urlReply : String := "\x7b\"url\":\"http://x/a.mp4\"\x7d"

/-- The upstream body `{"output":"http://x/b.mp4"}`. -/
def outputReply : String := "\x7b\"output\":\"http://x/b.mp4\"\x7d"

/-- The upstream body `{"id":42}`. -/
def otherReply : String := "\x7b\"id\":42\x7d"

/-- The upstream body `{"url":"http://x/a.mp4","output":1e999}`. -/
def hugeOutputReply : String :=
  "\x7b\"url\":\"http://x/a.mp4\",\"output\":1e999\x7d"

/-- The upstream body `{"url":1e999}`. -/
def hugeUrlReply : String := "\x7b\"url\":1e999\x7d"

/-- A small world: the two variables hold `key` and `url`, every URL parses,
the upstream outcome is `outcome`, the JSON layer knows the sample documents
above (anything else is malformed), and of the number literals in them only
`1e999` is outside `float64`. -/
def sampleEnv (key url : String) (outcome : Except String HTTPResponse) : Env :=
  { Getenv := fun name =>
      if name = "AI_API_KEY" then key else if name = "AI_API_URL" then url else ""
    decodeStream := fun s =>
      if s = catBody then some (JSON.obj [("prompt", JSON.str "a cat")])
      else if s = emptyPromptBody then some (JSON.obj [("prompt", JSON.str "")])
      else none
    decodeWhole := fun s =>
      if s = urlReply then some (JSON.obj [("url", JSON.str "http://x/a.mp4")])
      else if s = outputReply then some (JSON.obj [("output", JSON.str "http://x/b.mp4")])
      else if s = otherReply then some (JSON.obj [("id", JSON.num "42")])
      else if s = hugeOutputReply then
        some (JSON.obj [("url", JSON.str "http://x/a.mp4"), ("output", JSON.num "1e999")])
      else if s = hugeUrlReply then some (JSON.obj [("url", JSON.num "1e999")])
      else none
    floatFits := fun lit => lit != "1e999"
    encode := fun j =>
      match j with
      | JSON.obj [(k, JSON.str v)] => "\x7b\"" ++ k ++ "\":\"" ++ v ++ "\"\x7d"
      | _ => "null"
    parseURL := fun _ => true
    Do := fun _ => outcome }

/-- The sample world with both variables set. -/
def catEnv (outcome : Except String HTTPResponse) : Env :=
  sampleEnv "sk-test" "http://ai.example/v1" outcome

/-- The request the handler sends in `catEnv` for the prompt `a cat`. -/
def catRequest : HTTPRequest :=
  { Method := "POST"
    URL := "http://ai.example/v1"
    Header := [("Content-Type", "application/json"), ("Authorization", "Bearer sk-test")]
    Body := catBody }

/-! ## The paths of the handler -/

/-- The request the handler builds with `NewRequest` and two `Set` calls is
`upstreamRequest`. -/
theorem built_request (env : Env) (prompt : String) :
    (({ Method := "POST", URL := env.Getenv "AI_API_URL", Header := [],
        Body := env.encode (JSON.obj [("prompt", JSON.str prompt)]) } : HTTPRequest).Set
        "Content-Type" "application/json").Set "Authorization"
        ("Bearer " ++ env.Getenv "AI_API_KEY") = upstreamRequest env prompt := by
  simp [HTTPRequest.Set, upstreamRequest]

/-- Path 1: binding fails. -/
theorem path_bind_error (env : Env) (body e : String)
    (hb : ShouldBindJSON env body = Except.error e) :
    GenerateVideo env body =
      { responses := [(400, { Success := false, VideoURL := "",
                              Error := "Invalid request: prompt is required" })],
        calls := [], stdout := [] } := by
  simp [GenerateVideo, hb, Context.JSON]

/-- Path 2: a configuration value is empty. -/
theorem path_config_missing (env : Env) (body : String) (req : GenerateRequest)
    (hb : ShouldBindJSON env body = Except.ok req)
    (hc : env.Getenv "AI_API_KEY" = "" ∨ env.Getenv "AI_API_URL" = "") :
    GenerateVideo env body =
      { responses := [(500, { Success := false, VideoURL := "",
                              Error := "Server configuration error: API Key or URL missing" })],
        calls := [], stdout := [] } := by
  simp [GenerateVideo, hb, hc, Context.JSON]

/-- Path 3: the outbound request cannot be built. -/
theorem path_build_error (env : Env) (body : String) (req : GenerateRequest)
    (hb : ShouldBindJSON env body = Except.ok req)
    (hk : env.Getenv "AI_API_KEY" ≠ "") (hu : env.Getenv "AI_API_URL" ≠ "")
    (hp : env.parseURL (env.Getenv "AI_API_URL") = false) :
    GenerateVideo env body =
      { responses := [(500, { Success := false, VideoURL := "",
                              Error := "Failed to create request" })],
        calls := [], stdout := [] } := by
  simp [GenerateVideo, hb, hk, hu, hp, Context.JSON, Marshal, NewRequest]

/-- Everything after a successful `NewRequest`: the call is recorded and the
rest of the handler runs on the outcome of `client.Do`. -/
theorem path_call (env : Env) (body : String) (req : GenerateRequest)
    (hb : ShouldBindJSON env body = Except.ok req)
    (hk : env.Getenv "AI_API_KEY" ≠ "") (hu : env.Getenv "AI_API_URL" ≠ "")
    (hp : env.parseURL (env.Getenv "AI_API_URL") = true) :
    GenerateVideo env body =
      (match env.Do (upstreamRequest env req.Prompt) with
      | Except.error _ =>
        { responses := [(502, { Success := false, VideoURL := "",
                                Error := "Failed to contact AI provider" })],
          calls := [upstreamRequest env req.Prompt], stdout := [] }
      | Except.ok resp =>
        if resp.StatusCode ≠ 200 then
          { responses := [(502, { Success := false, VideoURL := "",
                                  Error := "AI Provider returned error: " ++
                                    toString resp.StatusCode })],
            calls := [upstreamRequest env req.Prompt],
            stdout := ["Upstream Error: " ++ resp.Body ++ "\n"] }
        else
          match Unmarshal env resp.Body with
          | Except.error _ =>
            { responses := [(500, { Success := false, VideoURL := "",
                                    Error := "Failed to parse AI response" })],
              calls := [upstreamRequest env req.Prompt], stdout := [] }
          | Except.ok m =>
            match assertString (mapIndex m "url") with
            | some url =>
              { responses := [(200, { Success := true, VideoURL := url, Error := "" })],
                calls := [upstreamRequest env req.Prompt], stdout := [] }
            | none =>
              match assertString (mapIndex m "output") with
              | some output =>
                { responses := [(200, { Success := true, VideoURL := output, Error := "" })],
                  calls := [upstreamRequest env req.Prompt], stdout := [] }
              | none =>
                { responses := [(500, { Success := false, VideoURL := "",
                                        Error := "Video URL not found in response" })],
                  calls := [upstreamRequest env req.Prompt], stdout := [] }) := by
  simp only [GenerateVideo, hb, hk, hu, hp, Marshal, NewRequest, or_self, if_false, if_true,
    built_request]
  cases hd : env.Do (upstreamRequest env req.Prompt) with
  | error e => simp [Context.JSON, Context.send]
  | ok resp =>
    by_cases hs : resp.StatusCode = 200
    · simp only [hs, ne_eq, not_true_eq_false, if_false]
      cases hm : Unmarshal env resp.Body with
      | error e => simp [Context.JSON, Context.send]
      | ok m =>
        cases h1 : assertString (mapIndex m "url") with
        | some url => simp [Context.JSON, Context.send]
        | none =>
          cases h2 : assertString (mapIndex m "output") with
          | some output => simp [Context.JSON, Context.send]
          | none => simp [Context.JSON, Context.send]
    · simp [hs, Context.JSON, Context.send, Context.Printf]

/-! ## Binding -/

/-- Members that do not select the field leave the decoder state alone. -/
theorem foldl_decodeMember_of_no_prompt (ms : List (String × JSON)) (st : DecodeState)
    (h : promptMember ms = none) : ms.foldl decodeMember st = st := by
  induction ms generalizing st with
  | nil => rfl
  | cons kv rest ih =>
    obtain ⟨k, v⟩ := kv
    simp only [promptMember] at h
    cases hr : promptMember rest with
    | some w => simp [hr] at h
    | none =>
      simp only [hr] at h
      have hk : namesPrompt k = false := by
        cases hn : namesPrompt k with
        | false => rfl
        | true => simp [hn] at h
      simp only [List.foldl_cons, decodeMember, hk]
      exact ih st hr

/-- When the last member selecting the field is the empty string, the decoded
struct holds the empty prompt. -/
theorem foldl_decodeMember_of_empty_prompt (ms : List (String × JSON)) (st : DecodeState)
    (h : promptMember ms = some (JSON.str "")) :
    (ms.foldl decodeMember st).req.Prompt = "" := by
  induction ms generalizing st with
  | nil => simp [promptMember] at h
  | cons kv rest ih =>
    obtain ⟨k, v⟩ := kv
    simp only [promptMember] at h
    cases hr : promptMember rest with
    | some w =>
      simp only [hr, Option.some.injEq] at h
      subst h
      simp only [List.foldl_cons]
      exact ih _ hr
    | none =>
      simp only [hr] at h
      cases hn : namesPrompt k with
      | false => simp [hn] at h
      | true =>
        simp only [hn, if_true, Option.some.injEq] at h
        subst h
        simp only [List.foldl_cons, decodeMember, hn, if_true]
        rw [foldl_decodeMember_of_no_prompt rest _ hr]

/-- A body whose `prompt` is missing or empty does not bind. -/
theorem bind_error_of_missing_or_empty (env : Env) (body : String)
    (h : promptMissingOrEmpty env body = true) :
    ∃ e, ShouldBindJSON env body = Except.error e := by
  unfold promptMissingOrEmpty at h
  cases hd : env.decodeStream body with
  | none => simp [hd] at h
  | some j =>
    cases j with
    | obj ms =>
      simp only [hd] at h
      have hprompt : (ms.foldl decodeMember {}).req.Prompt = "" := by
        cases hm : promptMember ms with
        | none => rw [foldl_decodeMember_of_no_prompt ms _ hm]
        | some w =>
          cases w with
          | str s =>
            simp only [hm, beq_iff_eq] at h
            subst h
            exact foldl_decodeMember_of_empty_prompt ms _ hm
          | _ => simp [hm] at h
      simp only [ShouldBindJSON, hd, decodeRequest]
      cases hs : (ms.foldl decodeMember {}).savedError with
      | some e => exact ⟨e, rfl⟩
      | none => simp [validate, hprompt]
    | _ => simp [hd] at h

/-- A body that is the object with the single member `prompt`, holding a
non-empty string, binds to that string. -/
theorem bind_ok_of_prompt (env : Env) (body p : String) (hp : p ≠ "")
    (hd : env.decodeStream body = some (JSON.obj [("prompt", JSON.str p)])) :
    ShouldBindJSON env body = Except.ok { Prompt := p } := by
  have hn : namesPrompt "prompt" = true := by decide
  simp [ShouldBindJSON, hd, decodeRequest, decodeMember, hn, validate, hp]

/-! ## The map built by `json.Unmarshal` -/

/-- Indexing after an assignment. -/
theorem mapIndex_mapAssign (m : List (String × JSON)) (k1 k : String) (v : JSON) :
    mapIndex (mapAssign m k1 v) k = if k1 == k then some v else mapIndex m k := by
  by_cases hk : k1 = k
  · subst hk
    simp [mapIndex, mapAssign]
  · have hfilter : ∀ l : List (String × JSON),
        (l.filter (fun e => e.1 != k1)).find? (fun e => e.1 == k)
          = l.find? (fun e => e.1 == k) := by
      intro l
      induction l with
      | nil => rfl
      | cons e rest ih =>
        by_cases he : e.1 = k1
        · have hb1 : (e.1 != k1) = false := by simp [he]
          have hb2 : (e.1 == k) = false := by simp [he, hk]
          rw [List.filter_cons, List.find?_cons]
          simp only [hb1, hb2]
          exact ih
        · have hb1 : (e.1 != k1) = true := by simp [he]
          rw [List.filter_cons]
          simp only [hb1, if_true]
          rw [List.find?_cons, List.find?_cons, ih]
    have hb : (k1 == k) = false := by simp [hk]
    simp only [mapIndex, mapAssign, List.find?_cons, hb, hfilter]
    rfl

/-- The map holds, under each key, the last member of that name. -/
theorem mapIndex_foldl (ms : List (String × JSON)) (init : List (String × JSON))
    (k : String) :
    mapIndex (ms.foldl (fun m kv => mapAssign m kv.1 kv.2) init) k =
      (match lastMember ms k with
      | some w => some w
      | none => mapIndex init k) := by
  induction ms generalizing init with
  | nil => simp [lastMember]
  | cons kv rest ih =>
    obtain ⟨k1, v⟩ := kv
    simp only [List.foldl_cons, lastMember]
    rw [ih]
    cases hr : lastMember rest k with
    | some w => rfl
    | none =>
      simp only [mapIndex_mapAssign]
      by_cases hk : (k1 == k) = true
      · simp [hk]
      · simp [hk, mapIndex]

/-- Indexing the unmarshalled map is looking up the last member. -/
theorem mapIndex_mapOfMembers (ms : List (String × JSON)) (k : String) :
    mapIndex (mapOfMembers ms) k = lastMember ms k := by
  unfold mapOfMembers
  rw [mapIndex_foldl]
  cases lastMember ms k <;> simp [mapIndex]

/-! ## The outbound call -/

/-- Once the request is built, exactly that request is handed to `client.Do`. -/
theorem path_call_calls (env : Env) (body : String) (req : GenerateRequest)
    (hb : ShouldBindJSON env body = Except.ok req)
    (hk : env.Getenv "AI_API_KEY" ≠ "") (hu : env.Getenv "AI_API_URL" ≠ "")
    (hp : env.parseURL (env.Getenv "AI_API_URL") = true) :
    (GenerateVideo env body).calls = [upstreamRequest env req.Prompt] := by
  rw [path_call env body req hb hk hu hp]
  repeat (first | rfl | split)

/-- A call is made only by a request that binds, with both configuration
values set and a URL that parses; it is the request of `upstreamRequest`. -/
theorem call_made (env : Env) (body : String) (rq : HTTPRequest)
    (h : rq ∈ (GenerateVideo env body).calls) :
    ∃ req, ShouldBindJSON env body = Except.ok req ∧
      env.Getenv "AI_API_KEY" ≠ "" ∧ env.Getenv "AI_API_URL" ≠ "" ∧
      env.parseURL (env.Getenv "AI_API_URL") = true ∧
      rq = upstreamRequest env req.Prompt := by
  cases hb : ShouldBindJSON env body with
  | error e =>
    rw [path_bind_error env body e hb] at h
    simp at h
  | ok req =>
    by_cases hc : env.Getenv "AI_API_KEY" = "" ∨ env.Getenv "AI_API_URL" = ""
    · rw [path_config_missing env body req hb hc] at h
      simp at h
    · have hk : env.Getenv "AI_API_KEY" ≠ "" := fun e => hc (Or.inl e)
      have hu : env.Getenv "AI_API_URL" ≠ "" := fun e => hc (Or.inr e)
      cases hp : env.parseURL (env.Getenv "AI_API_URL") with
      | false =>
        rw [path_build_error env body req hb hk hu hp] at h
        simp at h
      | true =>
        rw [path_call_calls env body req hb hk hu hp] at h
        exact ⟨req, rfl, hk, hu, rfl, by simpa using h⟩

/-- The handler after an upstream reply with status 200. -/
theorem path_reply_200 (env : Env) (body : String) (rq : HTTPRequest) (resp : HTTPResponse)
    (hcall : rq ∈ (GenerateVideo env body).calls)
    (hreply : env.Do rq = Except.ok resp) (h200 : resp.StatusCode = 200) :
    (GenerateVideo env body).responses =
      (match Unmarshal env resp.Body with
      | Except.error _ =>
        [(500, { Success := false, VideoURL := "", Error := "Failed to parse AI response" })]
      | Except.ok m =>
        match assertString (mapIndex m "url") with
        | some url => [(200, { Success := true, VideoURL := url, Error := "" })]
        | none =>
          match assertString (mapIndex m "output") with
          | some output => [(200, { Success := true, VideoURL := output, Error := "" })]
          | none =>
            [(500, { Success := false, VideoURL := "",
                     Error := "Video URL not found in response" })]) := by
  obtain ⟨req, hb, hk, hu, hp, hrq⟩ := call_made env body rq hcall
  subst hrq
  rw [path_call env body req hb hk hu hp]
  simp only [hreply, h200, ne_eq, not_true_eq_false, if_false]
  repeat (first | rfl | split)

/-- The type assertion fails exactly on what is not a string. -/
theorem assertString_eq_none (x : Option JSON) :
    assertString x = none ↔ ∀ u, x ≠ some (JSON.str u) := by
  constructor
  · intro h u hx
    subst hx
    simp [assertString] at h
  · intro h
    cases x with
    | none => rfl
    | some j =>
      cases j with
      | str s => exact absurd rfl (h s)
      | _ => rfl

/-! ## What every path has in common -/

/-- The text `fmt.Sprintf` builds for a non-200 upstream status is not empty. -/
theorem sprintf_ne_empty (n : Int) :
    "AI Provider returned error: " ++ toString n ≠ "" := by
  intro h
  have h2 := congrArg String.length h
  rw [String.length_append] at h2
  have h3 : "AI Provider returned error: ".length = 28 := by decide
  have h4 : "".length = 0 := rfl
  omega

/-- Every run writes one response; it is either a success (status 200, no
error text) or a failure (another status among 400, 500 and 502, an error
text, no URL). -/
theorem response_shape (env : Env) (body : String) :
    ∃ code r, (GenerateVideo env body).responses = [(code, r)] ∧
      ((code = 200 ∧ r.Success = true ∧ r.Error = "") ∨
       ((code = 400 ∨ code = 500 ∨ code = 502) ∧ r.Success = false ∧ r.Error ≠ "" ∧
          r.VideoURL = "")) := by
  cases hb : ShouldBindJSON env body with
  | error e =>
    rw [path_bind_error env body e hb]
    exact ⟨_, _, rfl, Or.inr ⟨by simp, rfl, by decide, rfl⟩⟩
  | ok req =>
    by_cases hc : env.Getenv "AI_API_KEY" = "" ∨ env.Getenv "AI_API_URL" = ""
    · rw [path_config_missing env body req hb hc]
      exact ⟨_, _, rfl, Or.inr ⟨by simp, rfl, by decide, rfl⟩⟩
    · have hk : env.Getenv "AI_API_KEY" ≠ "" := fun e => hc (Or.inl e)
      have hu : env.Getenv "AI_API_URL" ≠ "" := fun e => hc (Or.inr e)
      cases hp : env.parseURL (env.Getenv "AI_API_URL") with
      | false =>
        rw [path_build_error env body req hb hk hu hp]
        exact ⟨_, _, rfl, Or.inr ⟨by simp, rfl, by decide, rfl⟩⟩
      | true =>
        rw [path_call env body req hb hk hu hp]
        cases hd : env.Do (upstreamRequest env req.Prompt) with
        | error e => exact ⟨_, _, rfl, Or.inr ⟨by simp, rfl, by decide, rfl⟩⟩
        | ok resp =>
          by_cases hs : resp.StatusCode = 200
          · simp only [hs, ne_eq, not_true_eq_false, if_false]
            cases hm : Unmarshal env resp.Body with
            | error e => exact ⟨_, _, rfl, Or.inr ⟨by simp, rfl, by decide, rfl⟩⟩
            | ok m =>
              dsimp only
              cases h1 : assertString (mapIndex m "url") with
              | some url => exact ⟨_, _, rfl, Or.inl ⟨rfl, rfl, rfl⟩⟩
              | none =>
                dsimp only
                cases h2 : assertString (mapIndex m "output") with
                | some output => exact ⟨_, _, rfl, Or.inl ⟨rfl, rfl, rfl⟩⟩
                | none => exact ⟨_, _, rfl, Or.inr ⟨by simp, rfl, by decide, rfl⟩⟩
          · simp only [hs, ne_eq, not_false_eq_true, if_true]
            exact ⟨_, _, rfl, Or.inr ⟨by simp, rfl, sprintf_ne_empty _, rfl⟩⟩

/-! ## Client errors and configuration errors -/

/-- C1: a request whose body has a missing or empty `prompt`, or that does not
bind as a `GenerateRequest` at all, is answered, in every world (so for every
value of `AI_API_KEY` and `AI_API_URL`), with the single response 400,
`Success = false`, `Error = "Invalid request: prompt is required"`; no
outbound call is made and nothing is printed. -/
theorem bad_prompt_is_bad_request (env : Env) (body : String)
    (h : promptMissingOrEmpty env body = true ∨
      ∃ e, ShouldBindJSON env body = Except.error e) :
    GenerateVideo env body =
      { responses := [(400, { Success := false, VideoURL := "",
                              Error := "Invalid request: prompt is required" })],
        calls := [], stdout := [] } := by
  have hb : ∃ e, ShouldBindJSON env body = Except.error e := by
    rcases h with h | h
    · exact bind_error_of_missing_or_empty env body h
    · exact h
  obtain ⟨e, he⟩ := hb
  exact path_bind_error env body e he

/-- C1 at the body `{"prompt":""}` with both configuration values set. -/
theorem bad_prompt_is_bad_request_witness :
    promptMissingOrEmpty (catEnv (Except.error "down")) emptyPromptBody = true ∧
    GenerateVideo (catEnv (Except.error "down")) emptyPromptBody =
      { responses := [(400, { Success := false, VideoURL := "",
                              Error := "Invalid request: prompt is required" })],
        calls := [], stdout := [] } :=
  ⟨by decide,
    bad_prompt_is_bad_request (catEnv (Except.error "down")) emptyPromptBody
      (Or.inl (by decide))⟩

/-- C2 as stated fails: with both configuration values empty and a body that
is not JSON, the handler answers 400, not 500. -/
theorem config_missing_unbound_counterexample :
    (sampleEnv "" "" (Except.error "down")).Getenv "AI_API_KEY" = "" ∧
    (sampleEnv "" "" (Except.error "down")).Getenv "AI_API_URL" = "" ∧
    (GenerateVideo (sampleEnv "" "" (Except.error "down")) "not json").responses =
      [(400, { Success := false, VideoURL := "",
               Error := "Invalid request: prompt is required" })] := by
  decide

/-- C2, amended: for every request that binds, if `AI_API_KEY` or
`AI_API_URL` is empty the handler answers with the single response 500,
`Success = false`, and makes no outbound call. -/
theorem config_missing_is_500 (env : Env) (body : String) (req : GenerateRequest)
    (hb : ShouldBindJSON env body = Except.ok req)
    (hc : env.Getenv "AI_API_KEY" = "" ∨ env.Getenv "AI_API_URL" = "") :
    GenerateVideo env body =
      { responses := [(500, { Success := false, VideoURL := "",
                              Error := "Server configuration error: API Key or URL missing" })],
        calls := [], stdout := [] } :=
  path_config_missing env body req hb hc

/-- C2, amended, at the body `{"prompt":"a cat"}` with the URL unset. -/
theorem config_missing_is_500_witness :
    ShouldBindJSON (sampleEnv "sk-test" "" (Except.error "down")) catBody
      = Except.ok { Prompt := "a cat" } ∧
    GenerateVideo (sampleEnv "sk-test" "" (Except.error "down")) catBody =
      { responses := [(500, { Success := false, VideoURL := "",
                              Error := "Server configuration error: API Key or URL missing" })],
        calls := [], stdout := [] } :=
  ⟨rfl,
    config_missing_is_500 (sampleEnv "sk-test" "" (Except.error "down")) catBody
      { Prompt := "a cat" } rfl (Or.inr (by decide))⟩

/-! ## Upstream errors -/

/-- C3: for a request that binds, with both configuration values set and a URL
the request can be built from, an upstream reply whose status is not 200 is
answered with the single response 502, `Success = false`, and an error text
made from the status code alone; two replies with the same status code give
the client the same responses, whatever their bodies. -/
theorem upstream_error_is_502 (env : Env) (body : String) (req : GenerateRequest)
    (r1 r2 : HTTPResponse)
    (hb : ShouldBindJSON env body = Except.ok req)
    (hk : env.Getenv "AI_API_KEY" ≠ "") (hu : env.Getenv "AI_API_URL" ≠ "")
    (hp : env.parseURL (env.Getenv "AI_API_URL") = true)
    (h1 : r1.StatusCode ≠ 200) (hsame : r2.StatusCode = r1.StatusCode) :
    (GenerateVideo (env.withReply r1) body).responses =
      [(502, { Success := false, VideoURL := "",
               Error := "AI Provider returned error: " ++ toString r1.StatusCode })] ∧
    (GenerateVideo (env.withReply r2) body).responses =
      (GenerateVideo (env.withReply r1) body).responses := by
  have key : ∀ r : HTTPResponse, r.StatusCode ≠ 200 →
      (GenerateVideo (env.withReply r) body).responses =
        [(502, { Success := false, VideoURL := "",
                 Error := "AI Provider returned error: " ++ toString r.StatusCode })] := by
    intro r hr
    have hb2 : ShouldBindJSON (env.withReply r) body = Except.ok req := hb
    rw [path_call (env.withReply r) body req hb2 hk hu hp]
    simp [Env.withReply, hr]
  have h2 : r2.StatusCode ≠ 200 := by rw [hsame]; exact h1
  refine ⟨key r1 h1, ?_⟩
  rw [key r1 h1, key r2 h2, hsame]

/-- C3 at two 503 replies with different bodies. -/
theorem upstream_error_is_502_witness :
    (GenerateVideo ((catEnv (Except.error "down")).withReply
        { StatusCode := 503, Body := "quota exceeded for key sk-test" }) catBody).responses =
      [(502, { Success := false, VideoURL := "",
               Error := "AI Provider returned error: " ++ toString (503 : Int) })] ∧
    (GenerateVideo ((catEnv (Except.error "down")).withReply
        { StatusCode := 503, Body := "maintenance" }) catBody).responses =
      (GenerateVideo ((catEnv (Except.error "down")).withReply
        { StatusCode := 503, Body := "quota exceeded for key sk-test" }) catBody).responses :=
  upstream_error_is_502 (catEnv (Except.error "down")) catBody { Prompt := "a cat" }
    { StatusCode := 503, Body := "quota exceeded for key sk-test" }
    { StatusCode := 503, Body := "maintenance" }
    rfl (by decide) (by decide) rfl (by decide) rfl

/-! ## Extracting the URL -/

/-- C4 as stated fails: the upstream 200 body
`{"url":"http://x/a.mp4","output":1e999}` is a JSON object whose top-level
`url` is a string, yet `json.Unmarshal` rejects the number under `output` and
the handler answers 500 with `Failed to parse AI response`. -/
theorem url_beside_huge_number_counterexample :
    (catEnv (Except.ok { StatusCode := 200, Body := hugeOutputReply })).decodeWhole
        hugeOutputReply =
      some (JSON.obj [("url", JSON.str "http://x/a.mp4"), ("output", JSON.num "1e999")]) ∧
    lastMember [("url", JSON.str "http://x/a.mp4"), ("output", JSON.num "1e999")] "url" =
      some (JSON.str "http://x/a.mp4") ∧
    GenerateVideo (catEnv (Except.ok { StatusCode := 200, Body := hugeOutputReply })) catBody =
      { responses := [(500, { Success := false, VideoURL := "",
                              Error := "Failed to parse AI response" })],
        calls := [catRequest], stdout := [] } :=
  ⟨rfl, rfl, by decide⟩

/-- C4, amended: for an upstream reply with status 200 whose body is a JSON
object that `json.Unmarshal` decodes (every number in it is within
`float64`), a string under top-level `url` is returned unchanged as
`VideoURL` (whatever `output` holds, and also when the string is empty); when
`url` is not a string, a string under top-level `output` is returned
unchanged.  In both cases the single response has status 200 and
`Success = true`. -/
theorem url_then_output (env : Env) (body : String) (rq : HTTPRequest)
    (resp : HTTPResponse) (ms : List (String × JSON))
    (hcall : rq ∈ (GenerateVideo env body).calls)
    (hreply : env.Do rq = Except.ok resp) (h200 : resp.StatusCode = 200)
    (hobj : env.decodeWhole resp.Body = some (JSON.obj ms))
    (hfit : numbersFit env (JSON.obj ms) = true) :
    (∀ u, lastMember ms "url" = some (JSON.str u) →
      (GenerateVideo env body).responses =
        [(200, { Success := true, VideoURL := u, Error := "" })]) ∧
    (∀ o, (∀ u, lastMember ms "url" ≠ some (JSON.str u)) →
      lastMember ms "output" = some (JSON.str o) →
      (GenerateVideo env body).responses =
        [(200, { Success := true, VideoURL := o, Error := "" })]) := by
  have hresp := path_reply_200 env body rq resp hcall hreply h200
  have hm : membersFit env ms = true := by simpa [numbersFit] using hfit
  simp only [Unmarshal, hobj, hm, if_true, mapIndex_mapOfMembers] at hresp
  constructor
  · intro u hurl
    rw [hresp]
    simp [hurl, assertString]
  · intro o hno hout
    rw [hresp]
    have h1 : assertString (lastMember ms "url") = none :=
      (assertString_eq_none _).2 hno
    simp [h1, hout, assertString]

/-- C4, amended, at the replies `{"url":"http://x/a.mp4"}` and
`{"output":"http://x/b.mp4"}`. -/
theorem url_then_output_witness :
    (GenerateVideo (catEnv (Except.ok { StatusCode := 200, Body := urlReply })) catBody).responses
      = [(200, { Success := true, VideoURL := "http://x/a.mp4", Error := "" })] ∧
    (GenerateVideo (catEnv (Except.ok { StatusCode := 200, Body := outputReply })) catBody).responses
      = [(200, { Success := true, VideoURL := "http://x/b.mp4", Error := "" })] :=
  ⟨(url_then_output (catEnv (Except.ok { StatusCode := 200, Body := urlReply })) catBody
      catRequest { StatusCode := 200, Body := urlReply }
      [("url", JSON.str "http://x/a.mp4")] (by decide) rfl rfl rfl rfl).1 "http://x/a.mp4" rfl,
   (url_then_output (catEnv (Except.ok { StatusCode := 200, Body := outputReply })) catBody
      catRequest { StatusCode := 200, Body := outputReply }
      [("output", JSON.str "http://x/b.mp4")] (by decide) rfl rfl rfl rfl).2 "http://x/b.mp4"
      (by intro u h; simp [lastMember] at h) rfl⟩

/-- C5 as stated fails: the upstream 200 body `{"url":1e999}` is a JSON object
in which neither `url` nor `output` is a string, yet the error text is
`Failed to parse AI response`, not `Video URL not found in response`. -/
theorem huge_number_is_parse_failure_counterexample :
    (catEnv (Except.ok { StatusCode := 200, Body := hugeUrlReply })).decodeWhole hugeUrlReply =
      some (JSON.obj [("url", JSON.num "1e999")]) ∧
    GenerateVideo (catEnv (Except.ok { StatusCode := 200, Body := hugeUrlReply })) catBody =
      { responses := [(500, { Success := false, VideoURL := "",
                              Error := "Failed to parse AI response" })],
        calls := [catRequest], stdout := [] } :=
  ⟨rfl, by decide⟩

/-- C5, amended: for an upstream reply with status 200 whose body is JSON
`null`, or a JSON object that `json.Unmarshal` decodes (every number in it is
within `float64`) and in which neither top-level `url` nor top-level `output`
is a string, the single response is 500, `Success = false`,
`Error = "Video URL not found in response"`. -/
theorem no_url_is_500 (env : Env) (body : String) (rq : HTTPRequest) (resp : HTTPResponse)
    (hcall : rq ∈ (GenerateVideo env body).calls)
    (hreply : env.Do rq = Except.ok resp) (h200 : resp.StatusCode = 200)
    (hbody : env.decodeWhole resp.Body = some JSON.null ∨
      ∃ ms, env.decodeWhole resp.Body = some (JSON.obj ms) ∧
        numbersFit env (JSON.obj ms) = true ∧
        (∀ u, lastMember ms "url" ≠ some (JSON.str u)) ∧
        (∀ o, lastMember ms "output" ≠ some (JSON.str o))) :
    (GenerateVideo env body).responses =
      [(500, { Success := false, VideoURL := "",
               Error := "Video URL not found in response" })] := by
  have hresp := path_reply_200 env body rq resp hcall hreply h200
  rcases hbody with hnull | ⟨ms, hobj, hfit, hno1, hno2⟩
  · rw [hresp]
    simp [Unmarshal, hnull, mapIndex, assertString]
  · have hm : membersFit env ms = true := by simpa [numbersFit] using hfit
    simp only [Unmarshal, hobj, hm, if_true, mapIndex_mapOfMembers] at hresp
    rw [hresp]
    have h1 : assertString (lastMember ms "url") = none :=
      (assertString_eq_none _).2 hno1
    have h2 : assertString (lastMember ms "output") = none :=
      (assertString_eq_none _).2 hno2
    simp [h1, h2]

/-- C5, amended, at the reply `{"id":42}`. -/
theorem no_url_is_500_witness :
    (GenerateVideo (catEnv (Except.ok { StatusCode := 200, Body := otherReply })) catBody).responses
      = [(500, { Success := false, VideoURL := "",
                 Error := "Video URL not found in response" })] :=
  no_url_is_500 (catEnv (Except.ok { StatusCode := 200, Body := otherReply })) catBody
    catRequest { StatusCode := 200, Body := otherReply } (by decide) rfl rfl
    (Or.inr ⟨[("id", JSON.num "42")], rfl, rfl,
      by intro u h; simp [lastMember] at h, by intro o h; simp [lastMember] at h⟩)

/-- C6: for a non-empty prompt `p` sent as `{"prompt": p}`, with both
configuration values set (and the URL one a request can be built from) and
the upstream replying 200 with the body `{"url": u}`, the handler sends one
response, with status 200, whose JSON is the object with exactly the two
members `success = true` and `videoUrl = u`, so without an `error` member. -/
theorem success_shape (env : Env) (body p u : String) (resp : HTTPResponse)
    (hp : p ≠ "")
    (hbody : env.decodeStream body = some (JSON.obj [("prompt", JSON.str p)]))
    (hk : env.Getenv "AI_API_KEY" ≠ "") (hu : env.Getenv "AI_API_URL" ≠ "")
    (hparse : env.parseURL (env.Getenv "AI_API_URL") = true)
    (hreply : env.Do (upstreamRequest env p) = Except.ok resp)
    (h200 : resp.StatusCode = 200)
    (hjson : env.decodeWhole resp.Body = some (JSON.obj [("url", JSON.str u)])) :
    (GenerateVideo env body).responses.map (fun cr => (cr.1, cr.2.toJSON)) =
      [(200, JSON.obj [("success", JSON.bool true), ("videoUrl", JSON.str u)])] ∧
    (∀ cr ∈ (GenerateVideo env body).responses, "error" ∉ cr.2.toJSON.keys) := by
  have hb := bind_ok_of_prompt env body p hp hbody
  have hG := path_call env body { Prompt := p } hb hk hu hparse
  have hm : membersFit env [("url", JSON.str u)] = true := by
    simp [membersFit, numbersFit]
  simp only [hreply, h200, ne_eq, not_true_eq_false, if_false, Unmarshal, hjson, hm, if_true,
    mapIndex_mapOfMembers] at hG
  have hurl : assertString (lastMember [("url", JSON.str u)] "url") = some u := by
    simp [lastMember, assertString]
  simp only [hurl] at hG
  rw [hG]
  simp [GenerateResponse.toJSON, JSON.keys]

/-- C6 at the request `{"prompt":"a cat"}` and the reply
`{"url":"http://x/a.mp4"}`. -/
theorem success_shape_witness :
    (GenerateVideo (catEnv (Except.ok { StatusCode := 200, Body := urlReply }))
        catBody).responses.map (fun cr => (cr.1, cr.2.toJSON)) =
      [(200, JSON.obj [("success", JSON.bool true),
                       ("videoUrl", JSON.str "http://x/a.mp4")])] :=
  (success_shape (catEnv (Except.ok { StatusCode := 200, Body := urlReply })) catBody
    "a cat" "http://x/a.mp4" { StatusCode := 200, Body := urlReply }
    (by decide) rfl (by decide) (by decide) rfl rfl rfl rfl).1

/-! ## The shape of the responses -/

/-- C7 as stated fails: the 400 response to the body `{"prompt":""}` has
`Success = false` and its JSON carries the key `videoUrl`. -/
theorem failure_carries_videoUrl_counterexample :
    (GenerateVideo (catEnv (Except.error "down")) emptyPromptBody).responses.map
        (fun cr => (cr.1, cr.2.Success, cr.2.toJSON.keys)) =
      [(400, false, ["success", "videoUrl", "error"])] := by
  decide

/-- C7, amended: in the JSON of every response the handler sends, the key
`videoUrl` is present (holding the empty string when `Success` is false), and
the key `error` is present exactly when `Success` is false. -/
theorem response_keys (env : Env) (body : String) (cr : Nat × GenerateResponse)
    (hcr : cr ∈ (GenerateVideo env body).responses) :
    "videoUrl" ∈ cr.2.toJSON.keys ∧
    ("error" ∈ cr.2.toJSON.keys ↔ cr.2.Success = false) ∧
    (cr.2.Success = false → cr.2.toJSON.stringAt "videoUrl" = some "") := by
  obtain ⟨code, r, hresp, hshape⟩ := response_shape env body
  rw [hresp] at hcr
  have hcr2 : cr = (code, r) := by simpa using hcr
  subst hcr2
  rcases hshape with ⟨_, hs, he⟩ | ⟨_, hs, he, hv⟩
  · simp [GenerateResponse.toJSON, JSON.keys, JSON.stringAt, hs, he]
  · simp [GenerateResponse.toJSON, JSON.keys, JSON.stringAt, hs, he, hv]

/-- C7, amended, at the 400 response to the body `{"prompt":""}`. -/
theorem response_keys_witness :
    (400, { Success := false, Error := "Invalid request: prompt is required" }) ∈
      (GenerateVideo (catEnv (Except.error "down")) emptyPromptBody).responses ∧
    "videoUrl" ∈ (GenerateResponse.toJSON
      { Success := false, Error := "Invalid request: prompt is required" }).keys ∧
    "error" ∈ (GenerateResponse.toJSON
      { Success := false, Error := "Invalid request: prompt is required" }).keys ∧
    (GenerateResponse.toJSON
      { Success := false, Error := "Invalid request: prompt is required" }).stringAt
        "videoUrl" = some "" :=
  have h := response_keys (catEnv (Except.error "down")) emptyPromptBody
    (400, { Success := false, Error := "Invalid request: prompt is required" }) (by decide)
  ⟨by decide, h.1, h.2.1.2 rfl, h.2.2 rfl⟩

/-- C9: every run of the handler writes exactly one response; its `Success`
is true exactly when the status is 200; a response with `Success = false` has
a non-empty `Error` and an empty `VideoURL`; a response with `Success = true`
has an empty `Error`. -/
theorem response_invariant (env : Env) (body : String) :
    ∃ code r, (GenerateVideo env body).responses = [(code, r)] ∧
      (r.Success = true ↔ code = 200) ∧
      (r.Success = false → r.Error ≠ "" ∧ r.VideoURL = "") ∧
      (r.Success = true → r.Error = "") := by
  obtain ⟨code, r, hresp, hshape⟩ := response_shape env body
  refine ⟨code, r, hresp, ?_⟩
  rcases hshape with ⟨hc, hs, he⟩ | ⟨hc, hs, he, hv⟩
  · simp [hc, hs, he]
  · have hne : code ≠ 200 := by omega
    simp [hne, hs, he, hv]

/-! ## Status codes -/

/-- C8 as stated fails: with `AI_API_URL` unset and the body `{"prompt":""}`,
the configuration is missing and yet the status is 400, not 500. -/
theorem status_500_clause_counterexample :
    configMissing (sampleEnv "sk-test" "" (Except.error "down")) = true ∧
    bindFails (sampleEnv "sk-test" "" (Except.error "down")) emptyPromptBody = true ∧
    (GenerateVideo (sampleEnv "sk-test" "" (Except.error "down")) emptyPromptBody).responses.map
        (fun cr => cr.1) = [400] := by
  decide

/-- C8, amended: the handler writes one response, whose status is one of 200,
400, 500, 502; it is 200 exactly when a URL was extracted; 400 exactly when
the request fails prompt binding; 502 exactly when the outbound call fails at
transport level or the upstream status is not 200; 500 exactly when the
request binds and the configuration is missing, or the outbound request
cannot be built, or the upstream 200 body does not parse as a JSON object or
holds no string `url` or `output`. -/
theorem status_by_outcome (env : Env) (body : String) :
    ∃ code r, (GenerateVideo env body).responses = [(code, r)] ∧
      (code = 200 ∨ code = 400 ∨ code = 500 ∨ code = 502) ∧
      (code = 200 ↔ urlExtracted env body = true) ∧
      (code = 400 ↔ bindFails env body = true) ∧
      (code = 502 ↔ callFailed env body = true) ∧
      (code = 500 ↔ bindFails env body = false ∧
        (configMissing env = true ∨ cannotBuild env = true ∨
          replyWithoutURL env body = true)) := by
  cases hb : ShouldBindJSON env body with
  | error e =>
    have hG := path_bind_error env body e hb
    refine ⟨400, _, by rw [hG], ?_⟩
    simp [urlExtracted, bindFails, callFailed, replyWithoutURL, hG, hb]
  | ok req =>
    by_cases hc : env.Getenv "AI_API_KEY" = "" ∨ env.Getenv "AI_API_URL" = ""
    · have hG := path_config_missing env body req hb hc
      refine ⟨500, _, by rw [hG], ?_⟩
      have hcm : configMissing env = true := by
        simpa [configMissing] using hc
      simp [urlExtracted, bindFails, callFailed, replyWithoutURL, hG, hb, hcm]
    · have hk : env.Getenv "AI_API_KEY" ≠ "" := fun e => hc (Or.inl e)
      have hu : env.Getenv "AI_API_URL" ≠ "" := fun e => hc (Or.inr e)
      have hcm : configMissing env = false := by
        simp [configMissing, hk, hu]
      cases hp : env.parseURL (env.Getenv "AI_API_URL") with
      | false =>
        have hG := path_build_error env body req hb hk hu hp
        refine ⟨500, _, by rw [hG], ?_⟩
        simp [urlExtracted, bindFails, callFailed, replyWithoutURL, cannotBuild, hG, hb, hp]
      | true =>
        have hG := path_call env body req hb hk hu hp
        cases hd : env.Do (upstreamRequest env req.Prompt) with
        | error e =>
          simp only [hd] at hG
          refine ⟨502, _, by rw [hG], ?_⟩
          simp [urlExtracted, bindFails, callFailed, replyWithoutURL, cannotBuild, hG, hb, hp,
            hd, hcm]
        | ok resp =>
          by_cases hs : resp.StatusCode = 200
          · simp only [hd, hs, ne_eq, not_true_eq_false, if_false] at hG
            cases hm : Unmarshal env resp.Body with
            | error e =>
              simp only [hm] at hG
              refine ⟨500, _, by rw [hG], ?_⟩
              simp [urlExtracted, bindFails, callFailed, replyWithoutURL, cannotBuild, hG, hb,
                hp, hd, hcm, hs, hm]
            | ok m =>
              simp only [hm] at hG
              cases h1 : assertString (mapIndex m "url") with
              | some url =>
                simp only [h1] at hG
                refine ⟨200, _, by rw [hG], ?_⟩
                simp [urlExtracted, bindFails, callFailed, replyWithoutURL, cannotBuild, hG, hb,
                  hp, hd, hcm, hs, hm, h1]
              | none =>
                simp only [h1] at hG
                cases h2 : assertString (mapIndex m "output") with
                | some output =>
                  simp only [h2] at hG
                  refine ⟨200, _, by rw [hG], ?_⟩
                  simp [urlExtracted, bindFails, callFailed, replyWithoutURL, cannotBuild, hG,
                    hb, hp, hd, hcm, hs, hm, h1, h2]
                | none =>
                  simp only [h2] at hG
                  refine ⟨500, _, by rw [hG], ?_⟩
                  simp [urlExtracted, bindFails, callFailed, replyWithoutURL, cannotBuild, hG,
                    hb, hp, hd, hcm, hs, hm, h1, h2]
          · simp only [hd, hs, ne_eq, not_false_eq_true, if_true] at hG
            refine ⟨502, _, by rw [hG], ?_⟩
            simp [urlExtracted, bindFails, callFailed, replyWithoutURL, cannotBuild, hG, hb, hp,
              hd, hcm, hs]

/-! ## The outbound call, as the specification describes it -/

/-- C10: the handler makes at most one outbound call, and none when binding
fails or a configuration value is empty; a call that is made is a `POST` to
the configured `AI_API_URL`, with `Authorization` set to `Bearer ` followed
by the configured `AI_API_KEY`, `Content-Type` set to `application/json`, and
a body that is the marshalled object with the single key `prompt` holding the
prompt the request was bound to. -/
theorem one_outbound_call (env : Env) (body : String) :
    (GenerateVideo env body).calls.length ≤ 1 ∧
    ((∃ e, ShouldBindJSON env body = Except.error e) → (GenerateVideo env body).calls = []) ∧
    ((env.Getenv "AI_API_KEY" = "" ∨ env.Getenv "AI_API_URL" = "") →
      (GenerateVideo env body).calls = []) ∧
    (∀ rq ∈ (GenerateVideo env body).calls,
      ∃ req, ShouldBindJSON env body = Except.ok req ∧
        rq.Method = "POST" ∧
        rq.URL = env.Getenv "AI_API_URL" ∧
        rq.Get "Authorization" = some ("Bearer " ++ env.Getenv "AI_API_KEY") ∧
        rq.Get "Content-Type" = some "application/json" ∧
        rq.Header.length = 2 ∧
        rq.Body = env.encode (JSON.obj [("prompt", JSON.str req.Prompt)])) := by
  have hall : ∀ rq ∈ (GenerateVideo env body).calls,
      ∃ req, ShouldBindJSON env body = Except.ok req ∧
        env.Getenv "AI_API_KEY" ≠ "" ∧ env.Getenv "AI_API_URL" ≠ "" ∧
        (GenerateVideo env body).calls = [rq] ∧ rq = upstreamRequest env req.Prompt := by
    intro rq hrq
    obtain ⟨req, hb, hk, hu, hp, heq⟩ := call_made env body rq hrq
    exact ⟨req, hb, hk, hu, by rw [path_call_calls env body req hb hk hu hp, heq], heq⟩
  have hnone : (∀ rq, rq ∉ (GenerateVideo env body).calls) →
      (GenerateVideo env body).calls = [] := fun h => List.eq_nil_iff_forall_not_mem.2 h
  refine ⟨?_, ?_, ?_, ?_⟩
  · cases hcalls : (GenerateVideo env body).calls with
    | nil => simp
    | cons rq rest =>
      obtain ⟨_, _, _, _, h1, _⟩ := hall rq (by rw [hcalls]; simp)
      rw [← hcalls, h1]
      simp
  · rintro ⟨e, he⟩
    apply hnone
    intro rq hrq
    obtain ⟨req, hb, _⟩ := hall rq hrq
    rw [he] at hb
    cases hb
  · intro hc
    apply hnone
    intro rq hrq
    obtain ⟨req, _, hk, hu, _⟩ := hall rq hrq
    rcases hc with hc | hc
    · exact hk hc
    · exact hu hc
  · intro rq hrq
    obtain ⟨req, hb, _, _, _, heq⟩ := hall rq hrq
    subst heq
    refine ⟨req, hb, rfl, rfl, ?_, ?_, rfl, rfl⟩
    · simp [HTTPRequest.Get, upstreamRequest]
    · simp [HTTPRequest.Get, upstreamRequest]

/-- C10 at the request `{"prompt":"a cat"}`: the one call made is the `POST`
carrying the key as a bearer token and the prompt as the payload. -/
theorem one_outbound_call_witness :
    (GenerateVideo (catEnv (Except.error "down")) catBody).calls = [catRequest] ∧
    (GenerateVideo (catEnv (Except.error "down")) catBody).calls.length ≤ 1 ∧
    (GenerateVideo (catEnv (Except.error "down")) emptyPromptBody).calls = [] :=
  ⟨by decide, (one_outbound_call (catEnv (Except.error "down")) catBody).1,
    (one_outbound_call (catEnv (Except.error "down")) emptyPromptBody).2.1
      ⟨"Field validation for Prompt failed on the required tag", rfl⟩⟩

end VideoBackend
